import Mathlib

/-!
# Transform resource of `terraform-provider-utils`

A shallow embedding of `internal/provider/transform_resource.go` and theorems
about its lifecycle handlers (`Create`, `Read`, `Update`, `Delete`) and its schema
(`GetSchema`).

The handlers are glue code around two external collaborators:

* the string-case library `github.com/iancoleman/strcase`, taken as a parameter
  (`strcase`), so every theorem holds for any casing functions;
* the plugin framework (`tfsdk`, `types`, `diag`, `tftypes`), of which the
  accessors the handlers call are embedded after the framework's behaviour: `Get`
  on a configuration, plan or state, `State.Set`, `State.RemoveResource` and
  `Diagnostics.Append`.

A handler of the Go code receives a request and a pointer to a response that it
mutates; here it is a function from the request and the response on entry to the
response on return.
-/

set_option autoImplicit false

namespace provider

/-! ## The string-case library (external) -/

/-- The three functions of `github.com/iancoleman/strcase` that `Read` calls. The library
is not part of the repository; it is a parameter of the embedding. -/
structure strcase where
  ToCamel : String → String
  ToLowerCamel : String → String
  ToSnake : String → String

/-- Loop of the sample upper and lower camel casing: a letter is copied, upper-cased
when `capNext` is set and lower-cased when it starts the text and `capNext` is not set;
a digit is copied and sets `capNext`; any other character is dropped, and sets `capNext`
when it is one of the separators `_`, space, `-` and `.`. -/
def strcase.sample.camelLoop : Bool → Bool → List Char → List Char
  | _, _, [] => []
  | first, capNext, c :: cs =>
    if c.isAlpha then
      (if capNext then c.toUpper else if first then c.toLower else c) ::
        strcase.sample.camelLoop false false cs
    else if c.isDigit then c :: strcase.sample.camelLoop false true cs
    else strcase.sample.camelLoop false (c = '_' || c = ' ' || c = '-' || c = '.') cs

/-- Loop of the sample snake casing: a letter is lower-cased, after a `_` when it is an
upper-case letter that follows a lower-case letter or a digit; the separators space,
`-` and `.` become `_`; any other character is copied. -/
def strcase.sample.snakeLoop : Bool → List Char → List Char
  | _, [] => []
  | afterLowerOrDigit, c :: cs =>
    if c.isUpper then
      (if afterLowerOrDigit then ['_', c.toLower] else [c.toLower]) ++
        strcase.sample.snakeLoop false cs
    else if c = ' ' || c = '-' || c = '.' then '_' :: strcase.sample.snakeLoop false cs
    else c :: strcase.sample.snakeLoop (c.isLower || c.isDigit) cs

/-- Modelled from the spec: the string-case utility is an external library that is not
under `src/`. This sample gives conventional camel, snake and Pascal casing, with word
boundaries at separators and case changes; it only instantiates the parameter `strcase`
at concrete inputs, and no theorem depends on its casing rules. -/
def strcase.sample : strcase where
  ToCamel s := String.mk (strcase.sample.camelLoop true true s.data)
  ToLowerCamel s := String.mk (strcase.sample.camelLoop true false s.data)
  ToSnake s := String.mk (strcase.sample.snakeLoop false s.data)

/-! ## Diagnostics (`diag`) -/

/-- Severity of a diagnostic (`diag.Severity`). -/
inductive diag.Severity where
  | Error
  | Warning
deriving DecidableEq, Repr

/-- One diagnostic (`diag.Diagnostic`): its severity, summary and detail. -/
structure diag.Diagnostic where
  Severity : diag.Severity
  Summary : String
  Detail : String
deriving DecidableEq, Repr

/-- The collection of diagnostics of a response (`diag.Diagnostics`). -/
abbrev diag.Diagnostics := List diag.Diagnostic

/-- Whether the collection holds a diagnostic of severity error
(`Diagnostics.HasError`). -/
def diag.Diagnostics.HasError (diags : diag.Diagnostics) : Bool :=
  diags.any (fun d => decide (d.Severity = diag.Severity.Error))

/-- Whether the collection holds the diagnostic (`Diagnostics.Contains`). -/
def diag.Diagnostics.Contains (diags : diag.Diagnostics) (d : diag.Diagnostic) : Bool :=
  diags.any (fun e => decide (e = d))

/-- Adds the diagnostics that are not yet in the collection, in order
(`Diagnostics.Append`). -/
def diag.Diagnostics.Append (diags : diag.Diagnostics) :
    List diag.Diagnostic → diag.Diagnostics
  | [] => diags
  | d :: rest =>
    if diag.Diagnostics.Contains diags d then diag.Diagnostics.Append diags rest
    else diag.Diagnostics.Append (diags ++ [d]) rest

/-! ## Values (`types`, `tftypes`) -/

/-- Go's built-in `string` type. -/
abbrev string := String

/-- A string attribute value of the framework (`types.String`): a Go struct with the
fields `Unknown`, `Null` and `Value`; the zero value is the known empty string. -/
structure types.String where
  Unknown : Bool := false
  Null : Bool := false
  Value : string := ""
deriving DecidableEq, Repr

/-- A raw value of type string (`tftypes.Value` of type `tftypes.String`): unknown,
null, or a known string. -/
inductive tftypes.StringValue where
  | Unknown
  | Null
  | Known (s : String)
deriving DecidableEq, Repr

/-- A raw value as a configuration, plan or state holds it (`tftypes.Value`), as far as
this resource needs: unknown, null (no resource), or an object giving a raw string to
each of its attributes. The Go map of attributes is the list of its entries; the object
need not have the attributes of the schema. -/
inductive tftypes.Value where
  | Unknown
  | Null
  | Object (attrs : List (String × tftypes.StringValue))
deriving DecidableEq, Repr

/-- Decoding of a raw string into a `types.String` (`StringType.ValueFromTerraform`). -/
def types.StringType.ValueFromTerraform : tftypes.StringValue → types.String
  | tftypes.StringValue.Unknown => { Unknown := true }
  | tftypes.StringValue.Null => { Null := true }
  | tftypes.StringValue.Known s => { Value := s }

/-- Encoding of a `types.String` as a raw string (`String.ToTerraformValue`). -/
def types.String.ToTerraformValue (s : types.String) : tftypes.StringValue :=
  if s.Null then tftypes.StringValue.Null
  else if s.Unknown then tftypes.StringValue.Unknown
  else tftypes.StringValue.Known s.Value

/-! ## The record and the accessors of the framework (`tfsdk`) -/

/-- The record of the resource, the target of every decoding
(`transformResourceData`); the zero value has three known empty strings. -/
structure transformResourceData where
  SourceString : types.String := {}
  TransformType : types.String := {}
  Result : types.String := {}
deriving DecidableEq, Repr

/-- The error diagnostic of a decoding that cannot build the target
(`"Value Conversion Error"`, with the cause in the detail). -/
def reflect.conversionError (cause : String) : diag.Diagnostic :=
  { Severity := diag.Severity.Error
    Summary := "Value Conversion Error"
    Detail := cause }

/-- The names that the struct tags of `transformResourceData` give to its fields. -/
def transformResourceData.tags : List String := ["source", "type", "result"]

/-- Decoding of a raw value into the record (`reflect.Into` with a struct target). An
unknown or null raw value cannot be decoded into a struct; an object must have exactly
the attributes that the struct tags name. Each failure gives one error diagnostic and
leaves the target as it was; otherwise the target becomes the record of the decoded
attributes. -/
def reflect.Into (raw : tftypes.Value) (target : transformResourceData) :
    transformResourceData × diag.Diagnostics :=
  match raw with
  | tftypes.Value.Unknown => (target, [reflect.conversionError "unhandled unknown value"])
  | tftypes.Value.Null => (target, [reflect.conversionError "unhandled null value"])
  | tftypes.Value.Object attrs =>
    match attrs.lookup "source", attrs.lookup "type", attrs.lookup "result" with
    | some source, some type, some result =>
      if attrs.all (fun kv => decide (kv.1 ∈ transformResourceData.tags)) then
        ({ SourceString := types.StringType.ValueFromTerraform source
           TransformType := types.StringType.ValueFromTerraform type
           Result := types.StringType.ValueFromTerraform result }, [])
      else (target, [reflect.conversionError "mismatch between struct and object"])
    | _, _, _ => (target, [reflect.conversionError "mismatch between struct and object"])

/-- The configuration of a request (`tfsdk.Config`), typed by the resource schema. -/
structure tfsdk.Config where
  Raw : tftypes.Value
deriving DecidableEq, Repr

/-- The planned state of a request (`tfsdk.Plan`), typed by the resource schema. -/
structure tfsdk.Plan where
  Raw : tftypes.Value
deriving DecidableEq, Repr

/-- The state of a request or response (`tfsdk.State`), typed by the resource schema. -/
structure tfsdk.State where
  Raw : tftypes.Value
deriving DecidableEq, Repr

/-- Decoding of the configuration into the record (`Config.Get`). -/
def tfsdk.Config.Get (c : tfsdk.Config) (target : transformResourceData) :
    transformResourceData × diag.Diagnostics :=
  reflect.Into c.Raw target

/-- Decoding of the plan into the record (`Plan.Get`). -/
def tfsdk.Plan.Get (p : tfsdk.Plan) (target : transformResourceData) :
    transformResourceData × diag.Diagnostics :=
  reflect.Into p.Raw target

/-- Decoding of the state into the record (`State.Get`). -/
def tfsdk.State.Get (s : tfsdk.State) (target : transformResourceData) :
    transformResourceData × diag.Diagnostics :=
  reflect.Into s.Raw target

/-- Writing of a record as the whole state (`State.Set`): the record is encoded
attribute by attribute; for a record of three strings the encoding gives no diagnostic. -/
def tfsdk.State.Set (_s : tfsdk.State) (val : transformResourceData) :
    tfsdk.State × diag.Diagnostics :=
  ({ Raw := tftypes.Value.Object [
      ("source", val.SourceString.ToTerraformValue),
      ("type", val.TransformType.ToTerraformValue),
      ("result", val.Result.ToTerraformValue)] }, [])

/-- Removal of the resource from the state (`State.RemoveResource`): the raw value
becomes the null object. -/
def tfsdk.State.RemoveResource (_s : tfsdk.State) : tfsdk.State :=
  { Raw := tftypes.Value.Null }

/-- Request of `Create` (`tfsdk.CreateResourceRequest`). -/
structure tfsdk.CreateResourceRequest where
  Config : tfsdk.Config
  Plan : tfsdk.Plan
deriving DecidableEq, Repr

/-- Response of `Create` (`tfsdk.CreateResourceResponse`). -/
structure tfsdk.CreateResourceResponse where
  State : tfsdk.State
  Diagnostics : diag.Diagnostics
deriving DecidableEq, Repr

/-- Request of `Read` (`tfsdk.ReadResourceRequest`). -/
structure tfsdk.ReadResourceRequest where
  State : tfsdk.State
deriving DecidableEq, Repr

/-- Response of `Read` (`tfsdk.ReadResourceResponse`). -/
structure tfsdk.ReadResourceResponse where
  State : tfsdk.State
  Diagnostics : diag.Diagnostics
deriving DecidableEq, Repr

/-- Request of `Update` (`tfsdk.UpdateResourceRequest`). -/
structure tfsdk.UpdateResourceRequest where
  Config : tfsdk.Config
  Plan : tfsdk.Plan
  State : tfsdk.State
deriving DecidableEq, Repr

/-- Response of `Update` (`tfsdk.UpdateResourceResponse`). -/
structure tfsdk.UpdateResourceResponse where
  State : tfsdk.State
  Diagnostics : diag.Diagnostics
deriving DecidableEq, Repr

/-- Request of `Delete` (`tfsdk.DeleteResourceRequest`). -/
structure tfsdk.DeleteResourceRequest where
  State : tfsdk.State
deriving DecidableEq, Repr

/-- Response of `Delete` (`tfsdk.DeleteResourceResponse`). -/
structure tfsdk.DeleteResourceResponse where
  State : tfsdk.State
  Diagnostics : diag.Diagnostics
deriving DecidableEq, Repr

/-! ## The schema (`tfsdk.Schema`) -/

/-- The attribute types of the framework (`types.StringType` and its siblings). -/
inductive attr.AttrType where
  | StringType
  | BoolType
  | NumberType
  | Int64Type
  | Float64Type
deriving DecidableEq, Repr

/-- The plan modifiers of the framework (`tfsdk.AttributePlanModifier`):
`UseStateForUnknown` copies the prior state value into the plan when the planned value
is unknown. -/
inductive tfsdk.AttributePlanModifier where
  | RequiresReplace
  | UseStateForUnknown
deriving DecidableEq, Repr

/-- One attribute of a schema (`tfsdk.Attribute`); a field that a Go literal leaves out
has its zero value. The Go field `Type` is `Type_` here. -/
structure tfsdk.Attribute where
  Type_ : attr.AttrType
  MarkdownDescription : String := ""
  Required : Bool := false
  Optional : Bool := false
  Computed : Bool := false
  Sensitive : Bool := false
  PlanModifiers : List tfsdk.AttributePlanModifier := []
deriving DecidableEq, Repr

/-- A schema (`tfsdk.Schema`); the Go map of attributes is the list of its entries. -/
structure tfsdk.Schema where
  MarkdownDescription : String := ""
  Attributes : List (String × tfsdk.Attribute) := []
deriving DecidableEq, Repr

/-- The attribute of the schema with the given name, if any (Go map lookup). -/
def tfsdk.Schema.attribute (s : tfsdk.Schema) (name : String) : Option tfsdk.Attribute :=
  s.Attributes.lookup name

/-- Schema of the resource (`GetSchema`, lines 16-42), with its diagnostics (`nil`). -/
def transformResourceType.GetSchema : tfsdk.Schema × diag.Diagnostics :=
  ({ MarkdownDescription := "Transform resource"
     Attributes := [
       ("source", { MarkdownDescription := "Source value for transform"
                    Optional := false
                    Type_ := attr.AttrType.StringType }),
       ("type", { MarkdownDescription := "Type of transform"
                  Optional := true
                  Type_ := attr.AttrType.StringType }),
       ("result", { Computed := true
                    MarkdownDescription := "Transform result"
                    PlanModifiers := [tfsdk.AttributePlanModifier.UseStateForUnknown]
                    Type_ := attr.AttrType.StringType })] }, [])

/-! ## The handlers (`transform_resource.go`) -/

/-- Handler `Create` (lines 62-86): decodes the configuration, returns on an error
diagnostic, sets `TransformType` to the string `camelCase`, and writes the record to the
state. -/
def transformResource.Create (req : tfsdk.CreateResourceRequest)
    (resp : tfsdk.CreateResourceResponse) : tfsdk.CreateResourceResponse :=
  let data : transformResourceData := {}
  let (data, diags) := req.Config.Get data
  let resp := { resp with Diagnostics := resp.Diagnostics.Append diags }
  if resp.Diagnostics.HasError then resp
  else
    let data := { data with TransformType := { Value := "camelCase" } }
    let (state, diags) := resp.State.Set data
    { resp with State := state, Diagnostics := resp.Diagnostics.Append diags }

/-- Handler `Read` (lines 88-122): decodes the state, returns on an error diagnostic,
computes the cased string by the switch on the value of `TransformType`, stores it in
`Result`, and writes the record to the state. -/
def transformResource.Read (lib : strcase) (req : tfsdk.ReadResourceRequest)
    (resp : tfsdk.ReadResourceResponse) : tfsdk.ReadResourceResponse :=
  let data : transformResourceData := {}
  let (data, diags) := req.State.Get data
  let resp := { resp with Diagnostics := resp.Diagnostics.Append diags }
  if resp.Diagnostics.HasError then resp
  else
    let s :=
      if data.TransformType.Value = "camel" then lib.ToLowerCamel data.SourceString.Value
      else if data.TransformType.Value = "snake" then lib.ToSnake data.SourceString.Value
      else lib.ToCamel data.SourceString.Value
    let data := { data with Result := { Value := s } }
    let (state, diags) := resp.State.Set data
    { resp with State := state, Diagnostics := resp.Diagnostics.Append diags }

/-- Handler `Update` (lines 124-144): decodes the plan, returns on an error diagnostic,
and writes the record to the state as decoded. -/
def transformResource.Update (req : tfsdk.UpdateResourceRequest)
    (resp : tfsdk.UpdateResourceResponse) : tfsdk.UpdateResourceResponse :=
  let data : transformResourceData := {}
  let (data, diags) := req.Plan.Get data
  let resp := { resp with Diagnostics := resp.Diagnostics.Append diags }
  if resp.Diagnostics.HasError then resp
  else
    let (state, diags) := resp.State.Set data
    { resp with State := state, Diagnostics := resp.Diagnostics.Append diags }

/-- Handler `Delete` (lines 146-165): decodes the state, returns on an error diagnostic,
and otherwise removes the resource from the state. -/
def transformResource.Delete (req : tfsdk.DeleteResourceRequest)
    (resp : tfsdk.DeleteResourceResponse) : tfsdk.DeleteResourceResponse :=
  let data : transformResourceData := {}
  let (_, diags) := req.State.Get data
  let resp := { resp with Diagnostics := resp.Diagnostics.Append diags }
  if resp.Diagnostics.HasError then resp
  else { resp with State := resp.State.RemoveResource }

/-! ## The case-transform algorithm of the specification -/

/-- The case-transform algorithm as the specification words it (section 4.1): lower camel
case for the kind `camel`, snake case for the kind `snake`, upper camel case for any
other kind. -/
def Spec.transform (lib : strcase) (source kind : String) : String :=
  if kind = "camel" then lib.ToLowerCamel source
  else if kind = "snake" then lib.ToSnake source
  else lib.ToCamel source

/-! ## Concrete configurations, plans and states -/

/-- A state written under another schema, with the attributes `configurable_attribute`
and `id` that the acceptance test names: it holds a record, and it does not decode into
`transformResourceData`. -/
def staleState : tfsdk.State :=
  { Raw := tftypes.Value.Object [
      ("configurable_attribute", tftypes.StringValue.Known "one"),
      ("id", tftypes.StringValue.Known "transform-id")] }

/-- A state that decodes: source `hello_world`, type `snake`, and no result yet. -/
def Example.snakeState : tfsdk.State :=
  { Raw := tftypes.Value.Object [
      ("source", tftypes.StringValue.Known "hello_world"),
      ("type", tftypes.StringValue.Known "snake"),
      ("result", tftypes.StringValue.Null)] }

/-- The record that `Example.snakeState` decodes to. -/
def Example.snakeRecord : transformResourceData :=
  { SourceString := { Value := "hello_world" }
    TransformType := { Value := "snake" }
    Result := { Null := true } }

/-- The request of `Create` for a configuration that supplies the type `snake`; the
planned result is unknown. -/
def Example.snakeCreate : tfsdk.CreateResourceRequest :=
  { Config := { Raw := Example.snakeState.Raw }
    Plan := { Raw := tftypes.Value.Object [
      ("source", tftypes.StringValue.Known "hello_world"),
      ("type", tftypes.StringValue.Known "snake"),
      ("result", tftypes.StringValue.Unknown)] } }

/-- A state with the source and type of `Example.snakeState`, the attributes in another
order, and a result left by an earlier call. -/
def Example.snakeStateWithResult : tfsdk.State :=
  { Raw := tftypes.Value.Object [
      ("result", tftypes.StringValue.Known "HelloWorld"),
      ("type", tftypes.StringValue.Known "snake"),
      ("source", tftypes.StringValue.Known "hello_world")] }

/-- The record that `Example.snakeStateWithResult` decodes to. -/
def Example.snakeRecordWithResult : transformResourceData :=
  { SourceString := { Value := "hello_world" }
    TransformType := { Value := "snake" }
    Result := { Value := "HelloWorld" } }

/-- The configuration of the acceptance scenario: source `one`, no type; the computed
result is null in a configuration. -/
def Example.oneConfig : tfsdk.Config :=
  { Raw := tftypes.Value.Object [
      ("source", tftypes.StringValue.Known "one"),
      ("type", tftypes.StringValue.Null),
      ("result", tftypes.StringValue.Null)] }

/-- The record that `Example.oneConfig` decodes to. -/
def Example.oneRecord : transformResourceData :=
  { SourceString := { Value := "one" }
    TransformType := { Null := true }
    Result := { Null := true } }

/-- The request of `Create` for `Example.oneConfig`; the planned result is unknown. -/
def Example.oneCreate : tfsdk.CreateResourceRequest :=
  { Config := Example.oneConfig
    Plan := { Raw := tftypes.Value.Object [
      ("source", tftypes.StringValue.Known "one"),
      ("type", tftypes.StringValue.Null),
      ("result", tftypes.StringValue.Unknown)] } }

/-- The state of the scenario after `Create` and `Read` of the source `one`. -/
def Example.oneState : tfsdk.State :=
  { Raw := tftypes.Value.Object [
      ("source", tftypes.StringValue.Known "one"),
      ("type", tftypes.StringValue.Known "camelCase"),
      ("result", tftypes.StringValue.Known "One")] }

/-- The record that `Example.oneState` decodes to. -/
def Example.oneStateRecord : transformResourceData :=
  { SourceString := { Value := "one" }
    TransformType := { Value := "camelCase" }
    Result := { Value := "One" } }

/-- The request of `Update` that changes the source of `Example.oneState` to `two`; the
plan carries the result of the prior state. -/
def Example.twoUpdate : tfsdk.UpdateResourceRequest :=
  { Config := { Raw := tftypes.Value.Object [
      ("source", tftypes.StringValue.Known "two"),
      ("type", tftypes.StringValue.Known "camelCase"),
      ("result", tftypes.StringValue.Null)] }
    Plan := { Raw := tftypes.Value.Object [
      ("source", tftypes.StringValue.Known "two"),
      ("type", tftypes.StringValue.Known "camelCase"),
      ("result", tftypes.StringValue.Known "One")] }
    State := Example.oneState }

/-- The record that the plan of `Example.twoUpdate` decodes to. -/
def Example.twoRecord : transformResourceData :=
  { SourceString := { Value := "two" }
    TransformType := { Value := "camelCase" }
    Result := { Value := "One" } }

/-! ## Lemmas on diagnostics -/

theorem diag.Diagnostics.Append_nil (diags : diag.Diagnostics) :
    diags.Append [] = diags := rfl

theorem diag.Diagnostics.Contains_iff (diags : diag.Diagnostics) (d : diag.Diagnostic) :
    diags.Contains d = true ↔ d ∈ diags := by
  unfold diag.Diagnostics.Contains
  simp only [List.any_eq_true, decide_eq_true_eq]
  constructor
  · rintro ⟨e, he, rfl⟩
    exact he
  · intro h
    exact ⟨d, h, rfl⟩

theorem diag.Diagnostics.mem_Append (new : List diag.Diagnostic) :
    ∀ (diags : diag.Diagnostics) (d : diag.Diagnostic),
      d ∈ diags.Append new ↔ d ∈ diags ∨ d ∈ new := by
  induction new with
  | nil => intro diags d; simp [diag.Diagnostics.Append]
  | cons e rest ih =>
    intro diags d
    unfold diag.Diagnostics.Append
    by_cases hc : diag.Diagnostics.Contains diags e = true
    · rw [if_pos hc, ih]
      have he : e ∈ diags := (diag.Diagnostics.Contains_iff diags e).1 hc
      constructor
      · rintro (h | h)
        · exact Or.inl h
        · exact Or.inr (List.mem_cons_of_mem _ h)
      · rintro (h | h)
        · exact Or.inl h
        · rcases List.mem_cons.1 h with rfl | h
          · exact Or.inl he
          · exact Or.inr h
    · rw [if_neg hc, ih]
      simp only [List.mem_append, List.mem_singleton, List.mem_cons]
      tauto

theorem diag.Diagnostics.HasError_iff (diags : diag.Diagnostics) :
    diags.HasError = true ↔ ∃ d ∈ diags, d.Severity = diag.Severity.Error := by
  unfold diag.Diagnostics.HasError
  simp only [List.any_eq_true, decide_eq_true_eq]

theorem diag.Diagnostics.HasError_Append (diags : diag.Diagnostics)
    (new : List diag.Diagnostic) :
    (diags.Append new).HasError = (diags.HasError || diag.Diagnostics.HasError new) := by
  rw [Bool.eq_iff_iff, Bool.or_eq_true, diag.Diagnostics.HasError_iff,
    diag.Diagnostics.HasError_iff, diag.Diagnostics.HasError_iff]
  constructor
  · rintro ⟨d, hd, he⟩
    rcases (diag.Diagnostics.mem_Append new diags d).1 hd with h | h
    · exact Or.inl ⟨d, h, he⟩
    · exact Or.inr ⟨d, h, he⟩
  · rintro (⟨d, hd, he⟩ | ⟨d, hd, he⟩)
    · exact ⟨d, (diag.Diagnostics.mem_Append new diags d).2 (Or.inl hd), he⟩
    · exact ⟨d, (diag.Diagnostics.mem_Append new diags d).2 (Or.inr hd), he⟩

/-! ## Lemmas on decoding and encoding -/

theorem ToTerraformValue_ValueFromTerraform (v : tftypes.StringValue) :
    (types.StringType.ValueFromTerraform v).ToTerraformValue = v := by
  cases v <;> rfl

/-- A decoding either fails, with one error diagnostic and the target untouched, or
gives no diagnostic and a record of decoded attributes. -/
theorem reflect.Into_cases (raw : tftypes.Value) (target : transformResourceData) :
    (∃ e, e.Severity = diag.Severity.Error ∧ reflect.Into raw target = (target, [e])) ∨
    (∃ a b c, reflect.Into raw target =
      ({ SourceString := types.StringType.ValueFromTerraform a
         TransformType := types.StringType.ValueFromTerraform b
         Result := types.StringType.ValueFromTerraform c }, [])) := by
  unfold reflect.Into
  split
  · exact Or.inl ⟨_, rfl, rfl⟩
  · exact Or.inl ⟨_, rfl, rfl⟩
  · split
    · split
      · exact Or.inr ⟨_, _, _, rfl⟩
      · exact Or.inl ⟨_, rfl, rfl⟩
    · exact Or.inl ⟨_, rfl, rfl⟩

theorem diag.Diagnostics.HasError_singleton (e : diag.Diagnostic)
    (he : e.Severity = diag.Severity.Error) :
    diag.Diagnostics.HasError [e] = true := by
  simp [diag.Diagnostics.HasError, he]

/-- A decoding without an error diagnostic gives no diagnostic at all, and a record of
decoded attributes. -/
theorem reflect.Into_ok {raw : tftypes.Value} {target data : transformResourceData}
    {diags : diag.Diagnostics} (hdec : reflect.Into raw target = (data, diags))
    (hok : diags.HasError = false) :
    diags = [] ∧ ∃ a b c, data =
      { SourceString := types.StringType.ValueFromTerraform a
        TransformType := types.StringType.ValueFromTerraform b
        Result := types.StringType.ValueFromTerraform c } := by
  rcases reflect.Into_cases raw target with ⟨e, he, h⟩ | ⟨a, b, c, h⟩
  · rw [h] at hdec
    obtain ⟨-, rfl⟩ := Prod.mk.inj hdec
    rw [diag.Diagnostics.HasError_singleton e he] at hok
    exact absurd hok (by decide)
  · rw [h] at hdec
    obtain ⟨rfl, rfl⟩ := Prod.mk.inj hdec
    exact ⟨rfl, a, b, c, rfl⟩

/-- Reading back a record that `State.Set` wrote: each field is decoded from its
encoding. -/
theorem tfsdk.State.Get_Set (s : tfsdk.State) (val target : transformResourceData) :
    (s.Set val).1.Get target =
      ({ SourceString := types.StringType.ValueFromTerraform val.SourceString.ToTerraformValue
         TransformType :=
           types.StringType.ValueFromTerraform val.TransformType.ToTerraformValue
         Result := types.StringType.ValueFromTerraform val.Result.ToTerraformValue }, []) := by
  rfl

/-! ## The handlers on a failed and on a successful decoding -/

theorem transformResource.Create_error (req : tfsdk.CreateResourceRequest)
    (resp : tfsdk.CreateResourceResponse)
    (herr : (req.Config.Get {}).2.HasError = true) :
    transformResource.Create req resp =
      { State := resp.State, Diagnostics := resp.Diagnostics.Append (req.Config.Get {}).2 } := by
  unfold transformResource.Create
  simp only [diag.Diagnostics.HasError_Append, herr, Bool.or_true, if_true]

theorem transformResource.Create_ok (req : tfsdk.CreateResourceRequest)
    (resp : tfsdk.CreateResourceResponse) (data : transformResourceData)
    (hdec : req.Config.Get {} = (data, []))
    (hresp : resp.Diagnostics.HasError = false) :
    transformResource.Create req resp =
      { State := (resp.State.Set { data with TransformType := { Value := "camelCase" } }).1
        Diagnostics := resp.Diagnostics } := by
  unfold transformResource.Create
  simp only [hdec, diag.Diagnostics.Append_nil, hresp, tfsdk.State.Set]
  rfl

theorem transformResource.Read_error (lib : strcase) (req : tfsdk.ReadResourceRequest)
    (resp : tfsdk.ReadResourceResponse)
    (herr : (req.State.Get {}).2.HasError = true) :
    transformResource.Read lib req resp =
      { State := resp.State, Diagnostics := resp.Diagnostics.Append (req.State.Get {}).2 } := by
  unfold transformResource.Read
  simp only [diag.Diagnostics.HasError_Append, herr, Bool.or_true, if_true]

theorem transformResource.Read_ok (lib : strcase) (req : tfsdk.ReadResourceRequest)
    (resp : tfsdk.ReadResourceResponse) (data : transformResourceData)
    (hdec : req.State.Get {} = (data, []))
    (hresp : resp.Diagnostics.HasError = false) :
    transformResource.Read lib req resp =
      { State := (resp.State.Set { data with Result :=
          { Value := Spec.transform lib data.SourceString.Value data.TransformType.Value } }).1
        Diagnostics := resp.Diagnostics } := by
  unfold transformResource.Read Spec.transform
  simp only [hdec, diag.Diagnostics.Append_nil, hresp, tfsdk.State.Set]
  rfl

theorem transformResource.Update_error (req : tfsdk.UpdateResourceRequest)
    (resp : tfsdk.UpdateResourceResponse)
    (herr : (req.Plan.Get {}).2.HasError = true) :
    transformResource.Update req resp =
      { State := resp.State, Diagnostics := resp.Diagnostics.Append (req.Plan.Get {}).2 } := by
  unfold transformResource.Update
  simp only [diag.Diagnostics.HasError_Append, herr, Bool.or_true, if_true]

theorem transformResource.Update_ok (req : tfsdk.UpdateResourceRequest)
    (resp : tfsdk.UpdateResourceResponse) (data : transformResourceData)
    (hdec : req.Plan.Get {} = (data, []))
    (hresp : resp.Diagnostics.HasError = false) :
    transformResource.Update req resp =
      { State := (resp.State.Set data).1, Diagnostics := resp.Diagnostics } := by
  unfold transformResource.Update
  simp only [hdec, diag.Diagnostics.Append_nil, hresp, tfsdk.State.Set]
  rfl

theorem transformResource.Delete_error (req : tfsdk.DeleteResourceRequest)
    (resp : tfsdk.DeleteResourceResponse)
    (herr : (req.State.Get {}).2.HasError = true) :
    transformResource.Delete req resp =
      { State := resp.State, Diagnostics := resp.Diagnostics.Append (req.State.Get {}).2 } := by
  unfold transformResource.Delete
  simp only [diag.Diagnostics.HasError_Append, herr, Bool.or_true, if_true]

theorem transformResource.Delete_ok (req : tfsdk.DeleteResourceRequest)
    (resp : tfsdk.DeleteResourceResponse)
    (hok : (req.State.Get {}).2.HasError = false)
    (hresp : resp.Diagnostics.HasError = false) :
    transformResource.Delete req resp =
      { State := resp.State.RemoveResource, Diagnostics := resp.Diagnostics } := by
  have h := reflect.Into_ok (Prod.mk.eta.symm : req.State.Get {} = (_, _)) hok
  unfold transformResource.Delete
  simp only [h.1, diag.Diagnostics.Append_nil, hresp]
  rfl

/-! ## The diagnostics that a handler leaves on a successful decoding -/

theorem transformResource.Create_diagnostics (req : tfsdk.CreateResourceRequest)
    (resp : tfsdk.CreateResourceResponse)
    (hok : (req.Config.Get {}).2.HasError = false) :
    (transformResource.Create req resp).Diagnostics = resp.Diagnostics := by
  have h := (reflect.Into_ok (Prod.mk.eta.symm : req.Config.Get {} = (_, _)) hok).1
  cases hresp : resp.Diagnostics.HasError
  · rw [transformResource.Create_ok req resp (req.Config.Get {}).1
      (by rw [← h]) hresp]
  · unfold transformResource.Create
    simp only [h, diag.Diagnostics.Append_nil, hresp, if_true]

theorem transformResource.Read_diagnostics (lib : strcase) (req : tfsdk.ReadResourceRequest)
    (resp : tfsdk.ReadResourceResponse)
    (hok : (req.State.Get {}).2.HasError = false) :
    (transformResource.Read lib req resp).Diagnostics = resp.Diagnostics := by
  have h := (reflect.Into_ok (Prod.mk.eta.symm : req.State.Get {} = (_, _)) hok).1
  cases hresp : resp.Diagnostics.HasError
  · rw [transformResource.Read_ok lib req resp (req.State.Get {}).1
      (by rw [← h]) hresp]
  · unfold transformResource.Read
    simp only [h, diag.Diagnostics.Append_nil, hresp, if_true]

theorem transformResource.Update_diagnostics (req : tfsdk.UpdateResourceRequest)
    (resp : tfsdk.UpdateResourceResponse)
    (hok : (req.Plan.Get {}).2.HasError = false) :
    (transformResource.Update req resp).Diagnostics = resp.Diagnostics := by
  have h := (reflect.Into_ok (Prod.mk.eta.symm : req.Plan.Get {} = (_, _)) hok).1
  cases hresp : resp.Diagnostics.HasError
  · rw [transformResource.Update_ok req resp (req.Plan.Get {}).1
      (by rw [← h]) hresp]
  · unfold transformResource.Update
    simp only [h, diag.Diagnostics.Append_nil, hresp, if_true]

/-! ## The state that a handler leaves, read back -/

theorem transformResource.Create_state (req : tfsdk.CreateResourceRequest)
    (resp : tfsdk.CreateResourceResponse)
    (data : transformResourceData) (diags : diag.Diagnostics)
    (hdec : req.Config.Get {} = (data, diags)) (hok : diags.HasError = false)
    (hresp : resp.Diagnostics.HasError = false) :
    (transformResource.Create req resp).State.Get {} =
      ({ SourceString := data.SourceString
         TransformType := { Value := "camelCase" }
         Result := data.Result }, []) := by
  obtain ⟨rfl, a, b, c, hdata⟩ := reflect.Into_ok hdec hok
  rw [transformResource.Create_ok req resp _ hdec hresp, tfsdk.State.Get_Set, hdata]
  simp only [ToTerraformValue_ValueFromTerraform]
  rfl

theorem transformResource.Update_state (req : tfsdk.UpdateResourceRequest)
    (resp : tfsdk.UpdateResourceResponse)
    (data : transformResourceData) (diags : diag.Diagnostics)
    (hdec : req.Plan.Get {} = (data, diags)) (hok : diags.HasError = false)
    (hresp : resp.Diagnostics.HasError = false) :
    (transformResource.Update req resp).State.Get {} = (data, []) := by
  obtain ⟨rfl, a, b, c, hdata⟩ := reflect.Into_ok hdec hok
  rw [transformResource.Update_ok req resp _ hdec hresp, tfsdk.State.Get_Set, hdata]
  simp only [ToTerraformValue_ValueFromTerraform]

theorem transformResource.Read_state (lib : strcase) (req : tfsdk.ReadResourceRequest)
    (resp : tfsdk.ReadResourceResponse)
    (data : transformResourceData) (diags : diag.Diagnostics)
    (hdec : req.State.Get {} = (data, diags)) (hok : diags.HasError = false)
    (hresp : resp.Diagnostics.HasError = false) :
    (transformResource.Read lib req resp).State.Get {} =
      ({ SourceString := data.SourceString
         TransformType := data.TransformType
         Result := { Value :=
           Spec.transform lib data.SourceString.Value data.TransformType.Value } }, []) := by
  obtain ⟨rfl, a, b, c, hdata⟩ := reflect.Into_ok hdec hok
  rw [transformResource.Read_ok lib req resp _ hdec hresp, tfsdk.State.Get_Set, hdata]
  simp only [ToTerraformValue_ValueFromTerraform]
  rfl

/-! ## Lemmas on the case-transform algorithm -/

theorem Spec.transform_camel (lib : strcase) (source kind : String) (h : kind = "camel") :
    Spec.transform lib source kind = lib.ToLowerCamel source := by
  unfold Spec.transform
  rw [if_pos h]

theorem Spec.transform_snake (lib : strcase) (source kind : String) (h : kind = "snake") :
    Spec.transform lib source kind = lib.ToSnake source := by
  unfold Spec.transform
  have hne : kind ≠ "camel" := by rw [h]; decide
  rw [if_neg hne, if_pos h]

theorem Spec.transform_other (lib : strcase) (source kind : String)
    (h1 : kind ≠ "camel") (h2 : kind ≠ "snake") :
    Spec.transform lib source kind = lib.ToCamel source := by
  unfold Spec.transform
  rw [if_neg h1, if_neg h2]

/-! ## Read -/

/-- Claim C1. For every persisted record that decodes, `Read` persists a record with the
same source and the same transformType, whose result is the lower camel case of the
source when transformType is exactly `camel`, its snake case when transformType is
exactly `snake`, and its upper camel case for every other transformType, among them the
absent (null) one, the empty one, `camelCase` and `Camel`. -/
theorem transformResource.Read_persists_cased_result (lib : strcase)
    (req : tfsdk.ReadResourceRequest) (resp : tfsdk.ReadResourceResponse)
    (data : transformResourceData) (diags : diag.Diagnostics)
    (hdec : req.State.Get {} = (data, diags)) (hok : diags.HasError = false)
    (hresp : resp.Diagnostics.HasError = false) :
    ∃ r : String,
      (transformResource.Read lib req resp).State.Get {} =
        ({ SourceString := data.SourceString
           TransformType := data.TransformType
           Result := { Value := r } }, []) ∧
      (data.TransformType.Value = "camel" → r = lib.ToLowerCamel data.SourceString.Value) ∧
      (data.TransformType.Value = "snake" → r = lib.ToSnake data.SourceString.Value) ∧
      (data.TransformType.Value ≠ "camel" → data.TransformType.Value ≠ "snake" →
        r = lib.ToCamel data.SourceString.Value) ∧
      (data.TransformType.Null = true ∨ data.TransformType.Value = "" ∨
        data.TransformType.Value = "camelCase" ∨ data.TransformType.Value = "Camel" →
        r = lib.ToCamel data.SourceString.Value) := by
  obtain ⟨rfl, a, b, c, hdata⟩ := reflect.Into_ok hdec hok
  refine ⟨Spec.transform lib data.SourceString.Value data.TransformType.Value,
    ?_, ?_, ?_, ?_, ?_⟩
  · rw [transformResource.Read_ok lib req resp _ hdec hresp, tfsdk.State.Get_Set, hdata]
    simp only [ToTerraformValue_ValueFromTerraform]
    rfl
  · intro h
    exact Spec.transform_camel lib _ _ h
  · intro h
    exact Spec.transform_snake lib _ _ h
  · intro h1 h2
    exact Spec.transform_other lib _ _ h1 h2
  · intro h
    have hne : data.TransformType.Value ≠ "camel" ∧ data.TransformType.Value ≠ "snake" := by
      rcases h with h | h | h | h
      · have hb : data.TransformType = types.StringType.ValueFromTerraform b := by
          rw [hdata]
        rw [hb] at h ⊢
        cases b with
        | Unknown => exact ⟨by decide, by decide⟩
        | Null => exact ⟨by decide, by decide⟩
        | Known t => exact absurd h (by simp [types.StringType.ValueFromTerraform])
      · rw [h]; exact ⟨by decide, by decide⟩
      · rw [h]; exact ⟨by decide, by decide⟩
      · rw [h]; exact ⟨by decide, by decide⟩
    exact Spec.transform_other lib _ _ hne.1 hne.2

/-- Witness of C1: the state with source `hello_world` and type `snake` decodes, and `Read`
with the sample library persists the same source and type with a result that is the snake
case of the source. -/
theorem transformResource.Read_persists_cased_result_witness :
    Example.snakeState.Get {} = (Example.snakeRecord, []) ∧
    diag.Diagnostics.HasError [] = false ∧
    ∃ r : String,
      (transformResource.Read strcase.sample { State := Example.snakeState }
        { State := Example.snakeState, Diagnostics := [] }).State.Get {} =
        ({ SourceString := Example.snakeRecord.SourceString
           TransformType := Example.snakeRecord.TransformType
           Result := { Value := r } }, []) ∧
      (Example.snakeRecord.TransformType.Value = "camel" →
        r = strcase.sample.ToLowerCamel Example.snakeRecord.SourceString.Value) ∧
      (Example.snakeRecord.TransformType.Value = "snake" →
        r = strcase.sample.ToSnake Example.snakeRecord.SourceString.Value) ∧
      (Example.snakeRecord.TransformType.Value ≠ "camel" →
        Example.snakeRecord.TransformType.Value ≠ "snake" →
        r = strcase.sample.ToCamel Example.snakeRecord.SourceString.Value) ∧
      (Example.snakeRecord.TransformType.Null = true ∨
        Example.snakeRecord.TransformType.Value = "" ∨
        Example.snakeRecord.TransformType.Value = "camelCase" ∨
        Example.snakeRecord.TransformType.Value = "Camel" →
        r = strcase.sample.ToCamel Example.snakeRecord.SourceString.Value) :=
  ⟨by decide, by decide,
    transformResource.Read_persists_cased_result strcase.sample
      { State := Example.snakeState } { State := Example.snakeState, Diagnostics := [] }
      Example.snakeRecord [] (by decide) (by decide) (by decide)⟩

/-- Claim C10. The result that `Read` writes is a function of source and transformType
only: for two persisted records that decode and agree on source and on transformType,
the two calls write the same result, whatever result each record held before and
whatever the two responses held on entry. -/
theorem transformResource.Read_result_depends_on_source_and_type_only (lib : strcase)
    (req₁ req₂ : tfsdk.ReadResourceRequest) (resp₁ resp₂ : tfsdk.ReadResourceResponse)
    (data₁ data₂ : transformResourceData) (diags₁ diags₂ : diag.Diagnostics)
    (hdec₁ : req₁.State.Get {} = (data₁, diags₁)) (hok₁ : diags₁.HasError = false)
    (hdec₂ : req₂.State.Get {} = (data₂, diags₂)) (hok₂ : diags₂.HasError = false)
    (hresp₁ : resp₁.Diagnostics.HasError = false)
    (hresp₂ : resp₂.Diagnostics.HasError = false)
    (hsource : data₁.SourceString = data₂.SourceString)
    (htype : data₁.TransformType = data₂.TransformType) :
    ((transformResource.Read lib req₁ resp₁).State.Get {}).1.Result =
      ((transformResource.Read lib req₂ resp₂).State.Get {}).1.Result ∧
    ((transformResource.Read lib req₁ resp₁).State.Get {}).1.Result =
      { Value := Spec.transform lib data₁.SourceString.Value data₁.TransformType.Value } := by
  obtain ⟨rfl, -⟩ := reflect.Into_ok hdec₁ hok₁
  obtain ⟨rfl, -⟩ := reflect.Into_ok hdec₂ hok₂
  rw [transformResource.Read_ok lib req₁ resp₁ _ hdec₁ hresp₁,
    transformResource.Read_ok lib req₂ resp₂ _ hdec₂ hresp₂, tfsdk.State.Get_Set,
    tfsdk.State.Get_Set, hsource, htype]
  exact ⟨rfl, rfl⟩

/-- Witness of C10: two states with source `hello_world` and type `snake`, one without a
result and one with a result left by an earlier call, read into two different
responses. -/
theorem transformResource.Read_result_depends_on_source_and_type_only_witness :
    Example.snakeState.Get {} = (Example.snakeRecord, []) ∧
    Example.snakeStateWithResult.Get {} = (Example.snakeRecordWithResult, []) ∧
    Example.snakeRecord.SourceString = Example.snakeRecordWithResult.SourceString ∧
    Example.snakeRecord.TransformType = Example.snakeRecordWithResult.TransformType ∧
    ((transformResource.Read strcase.sample { State := Example.snakeState }
        { State := Example.snakeState, Diagnostics := [] }).State.Get {}).1.Result =
      ((transformResource.Read strcase.sample { State := Example.snakeStateWithResult }
        { State := staleState, Diagnostics := [] }).State.Get {}).1.Result ∧
    ((transformResource.Read strcase.sample { State := Example.snakeState }
        { State := Example.snakeState, Diagnostics := [] }).State.Get {}).1.Result =
      { Value := Spec.transform strcase.sample Example.snakeRecord.SourceString.Value
          Example.snakeRecord.TransformType.Value } :=
  ⟨by decide, by decide, by decide, by decide,
    transformResource.Read_result_depends_on_source_and_type_only strcase.sample
      { State := Example.snakeState } { State := Example.snakeStateWithResult }
      { State := Example.snakeState, Diagnostics := [] }
      { State := staleState, Diagnostics := [] }
      Example.snakeRecord Example.snakeRecordWithResult [] []
      (by decide) (by decide) (by decide) (by decide) (by decide) (by decide)
      (by decide) (by decide)⟩

/-! ## Create -/

/-- Claim C2. For every configuration that decodes, `Create` persists a record whose
source is the configured source, whose transformType is the fixed value `camelCase`,
and whose result is the result decoded from the configuration: `Create` computes no
result from source and transformType. -/
theorem transformResource.Create_persists_fixed_type (req : tfsdk.CreateResourceRequest)
    (resp : tfsdk.CreateResourceResponse)
    (data : transformResourceData) (diags : diag.Diagnostics)
    (hdec : req.Config.Get {} = (data, diags)) (hok : diags.HasError = false)
    (hresp : resp.Diagnostics.HasError = false) :
    (transformResource.Create req resp).State.Get {} =
      ({ SourceString := data.SourceString
         TransformType := { Value := "camelCase" }
         Result := data.Result }, []) :=
  transformResource.Create_state req resp data diags hdec hok hresp

/-- Witness of C2: the configuration with source `one` and no type decodes, and `Create`
persists the source `one`, the type `camelCase` and the null result of the
configuration. -/
theorem transformResource.Create_persists_fixed_type_witness :
    Example.oneCreate.Config.Get {} = (Example.oneRecord, []) ∧
    (transformResource.Create Example.oneCreate
      { State := { Raw := tftypes.Value.Null }, Diagnostics := [] }).State.Get {} =
      ({ SourceString := Example.oneRecord.SourceString
         TransformType := { Value := "camelCase" }
         Result := Example.oneRecord.Result }, []) :=
  ⟨by decide,
    transformResource.Create_persists_fixed_type Example.oneCreate
      { State := { Raw := tftypes.Value.Null }, Diagnostics := [] }
      Example.oneRecord [] (by decide) (by decide) (by decide)⟩

/-- Claim C3 as stated fails: for the configuration with source `hello_world` and the
supplied type `snake`, `Create` persists the transformType `camelCase`, not `snake`, and
the following `Read` with the sample library writes the upper camel case `HelloWorld` of
the source, not its snake case `hello_world`. -/
theorem transformResource.Create_overwrites_supplied_type :
    Example.snakeCreate.Config.Get {} = (Example.snakeRecord, []) ∧
    ((transformResource.Create Example.snakeCreate
      { State := { Raw := tftypes.Value.Null }, Diagnostics := [] }).State.Get {}).1.TransformType =
      { Value := "camelCase" } ∧
    ((transformResource.Create Example.snakeCreate
      { State := { Raw := tftypes.Value.Null }, Diagnostics := [] }).State.Get {}).1.TransformType ≠
      Example.snakeRecord.TransformType ∧
    ((transformResource.Read strcase.sample
        { State := (transformResource.Create Example.snakeCreate
            { State := { Raw := tftypes.Value.Null }, Diagnostics := [] }).State }
        { State := { Raw := tftypes.Value.Null }, Diagnostics := [] }).State.Get {}).1.Result =
      { Value := "HelloWorld" } ∧
    strcase.sample.ToSnake "hello_world" = "hello_world" := by
  decide

/-- Claim C3, amended. `Create` sets transformType to the fixed value `camelCase` whether
or not the configuration supplies one: for every configuration that decodes, whatever
transformType it carries, the record that `Create` persists has the transformType
`camelCase`, and a following `Read` writes the upper camel case of the source, the
casing of the default branch. -/
theorem transformResource.Create_fixes_type_whatever_supplied (lib : strcase)
    (req : tfsdk.CreateResourceRequest) (resp : tfsdk.CreateResourceResponse)
    (resp' : tfsdk.ReadResourceResponse)
    (data : transformResourceData) (diags : diag.Diagnostics)
    (hdec : req.Config.Get {} = (data, diags)) (hok : diags.HasError = false)
    (hresp : resp.Diagnostics.HasError = false)
    (hresp' : resp'.Diagnostics.HasError = false) :
    ((transformResource.Create req resp).State.Get {}).1.TransformType =
      { Value := "camelCase" } ∧
    (transformResource.Read lib { State := (transformResource.Create req resp).State }
        resp').State.Get {} =
      ({ SourceString := data.SourceString
         TransformType := { Value := "camelCase" }
         Result := { Value := lib.ToCamel data.SourceString.Value } }, []) := by
  have hcreate := transformResource.Create_state req resp data diags hdec hok hresp
  have hread := transformResource.Read_state lib
    { State := (transformResource.Create req resp).State } resp' _ [] hcreate rfl hresp'
  rw [hread, hcreate]
  exact ⟨rfl, rfl⟩

/-- Witness of C3, amended: the configuration with source `hello_world` and the supplied
type `snake` decodes; `Create` persists the type `camelCase` and the following `Read`
with the sample library writes the upper camel case of the source. -/
theorem transformResource.Create_fixes_type_whatever_supplied_witness :
    Example.snakeCreate.Config.Get {} = (Example.snakeRecord, []) ∧
    Example.snakeRecord.TransformType = { Value := "snake" } ∧
    ((transformResource.Create Example.snakeCreate
      { State := { Raw := tftypes.Value.Null }, Diagnostics := [] }).State.Get {}).1.TransformType =
      { Value := "camelCase" } ∧
    (transformResource.Read strcase.sample
        { State := (transformResource.Create Example.snakeCreate
            { State := { Raw := tftypes.Value.Null }, Diagnostics := [] }).State }
        { State := { Raw := tftypes.Value.Null }, Diagnostics := [] }).State.Get {} =
      ({ SourceString := Example.snakeRecord.SourceString
         TransformType := { Value := "camelCase" }
         Result := { Value :=
           strcase.sample.ToCamel Example.snakeRecord.SourceString.Value } }, []) :=
  ⟨by decide, by decide,
    transformResource.Create_fixes_type_whatever_supplied strcase.sample Example.snakeCreate
      { State := { Raw := tftypes.Value.Null }, Diagnostics := [] }
      { State := { Raw := tftypes.Value.Null }, Diagnostics := [] }
      Example.snakeRecord [] (by decide) (by decide) (by decide) (by decide)⟩

/-- Claim C4. For every source `s` configured with no type, `Create` followed by `Read`
yields a record whose source is `s`, whose transformType is the value `camelCase` that
`Create` recorded, and whose result is the upper camel case of `s`; for `s = "one"`
the result is `One`, the upper camel case that the library gives to `one`. -/
theorem transformResource.Create_then_Read_default (lib : strcase) (s : String)
    (req : tfsdk.CreateResourceRequest) (resp : tfsdk.CreateResourceResponse)
    (resp' : tfsdk.ReadResourceResponse)
    (data : transformResourceData) (diags : diag.Diagnostics)
    (hdec : req.Config.Get {} = (data, diags)) (hok : diags.HasError = false)
    (hsource : data.SourceString = { Value := s })
    (_htype : data.TransformType = { Null := true })
    (hresp : resp.Diagnostics.HasError = false)
    (hresp' : resp'.Diagnostics.HasError = false) :
    (transformResource.Read lib { State := (transformResource.Create req resp).State }
        resp').State.Get {} =
      ({ SourceString := { Value := s }
         TransformType := { Value := "camelCase" }
         Result := { Value := lib.ToCamel s } }, []) ∧
    (s = "one" → lib.ToCamel "one" = "One" →
      ((transformResource.Read lib { State := (transformResource.Create req resp).State }
        resp').State.Get {}).1.Result = { Value := "One" }) := by
  have hcreate := transformResource.Create_state req resp data diags hdec hok hresp
  have hread : (transformResource.Read lib
      { State := (transformResource.Create req resp).State } resp').State.Get {} =
      ({ SourceString := { Value := s }
         TransformType := { Value := "camelCase" }
         Result := { Value := lib.ToCamel s } }, []) := by
    rw [transformResource.Read_ok lib _ resp' _ hcreate hresp', tfsdk.State.Get_Set, hsource]
    rfl
  refine ⟨hread, ?_⟩
  intro hs hone
  rw [hread, hs, hone]

/-- Witness of C4: the scenario of the specification with the sample library, whose
upper camel case of `one` is `One`. -/
theorem transformResource.Create_then_Read_default_witness :
    Example.oneCreate.Config.Get {} = (Example.oneRecord, []) ∧
    strcase.sample.ToCamel "one" = "One" ∧
    ((transformResource.Read strcase.sample
        { State := (transformResource.Create Example.oneCreate
            { State := { Raw := tftypes.Value.Null }, Diagnostics := [] }).State }
        { State := { Raw := tftypes.Value.Null }, Diagnostics := [] }).State.Get {}).1.Result =
      { Value := "One" } :=
  ⟨by decide, by decide,
    (transformResource.Create_then_Read_default strcase.sample "one" Example.oneCreate
      { State := { Raw := tftypes.Value.Null }, Diagnostics := [] }
      { State := { Raw := tftypes.Value.Null }, Diagnostics := [] }
      Example.oneRecord [] (by decide) (by decide) (by decide) (by decide) (by decide)
      (by decide)).2 rfl (by decide)⟩

/-! ## Update -/

/-- Claim C6. For every plan that decodes, `Update` persists exactly the planned record:
the new state reads back as the record decoded from the plan, with the same source,
transformType and result; the result is the planned one, whatever source and
transformType the plan carries. -/
theorem transformResource.Update_persists_plan (req : tfsdk.UpdateResourceRequest)
    (resp : tfsdk.UpdateResourceResponse)
    (data : transformResourceData) (diags : diag.Diagnostics)
    (hdec : req.Plan.Get {} = (data, diags)) (hok : diags.HasError = false)
    (hresp : resp.Diagnostics.HasError = false) :
    (transformResource.Update req resp).State.Get {} = (data, []) ∧
    ((transformResource.Update req resp).State.Get {}).1.SourceString = data.SourceString ∧
    ((transformResource.Update req resp).State.Get {}).1.TransformType =
      data.TransformType ∧
    ((transformResource.Update req resp).State.Get {}).1.Result = data.Result := by
  have h := transformResource.Update_state req resp data diags hdec hok hresp
  rw [h]
  exact ⟨rfl, rfl, rfl, rfl⟩

/-- Witness of C6: the plan that changes the source from `one` to `two` decodes, and
`Update` persists it with the result `One` that the plan carried. -/
theorem transformResource.Update_persists_plan_witness :
    Example.twoUpdate.Plan.Get {} = (Example.twoRecord, []) ∧
    (transformResource.Update Example.twoUpdate
      { State := Example.oneState, Diagnostics := [] }).State.Get {} =
      (Example.twoRecord, []) ∧
    ((transformResource.Update Example.twoUpdate
      { State := Example.oneState, Diagnostics := [] }).State.Get {}).1.Result =
      { Value := "One" } :=
  ⟨by decide,
    (transformResource.Update_persists_plan Example.twoUpdate
      { State := Example.oneState, Diagnostics := [] }
      Example.twoRecord [] (by decide) (by decide) (by decide)).1,
    (transformResource.Update_persists_plan Example.twoUpdate
      { State := Example.oneState, Diagnostics := [] }
      Example.twoRecord [] (by decide) (by decide) (by decide)).2.2.2⟩

/-- Claim C5. For every record and every planned new source, `Update` followed by `Read`
yields a record whose source is the planned source and whose result is the transform of
the planned source under the planned transformType, whatever the previous state held;
with the previous source `one` and the planned source `two`, the source reads back as
`two` and the result is the transform of `two`. -/
theorem transformResource.Update_then_Read_transforms_planned_source (lib : strcase)
    (req : tfsdk.UpdateResourceRequest) (resp : tfsdk.UpdateResourceResponse)
    (resp' : tfsdk.ReadResourceResponse)
    (data : transformResourceData) (diags : diag.Diagnostics)
    (hdec : req.Plan.Get {} = (data, diags)) (hok : diags.HasError = false)
    (hresp : resp.Diagnostics.HasError = false)
    (hresp' : resp'.Diagnostics.HasError = false) :
    (transformResource.Read lib { State := (transformResource.Update req resp).State }
        resp').State.Get {} =
      ({ SourceString := data.SourceString
         TransformType := data.TransformType
         Result := { Value :=
           Spec.transform lib data.SourceString.Value data.TransformType.Value } }, []) ∧
    (∀ previous : transformResourceData,
      req.State.Get {} = (previous, []) →
      previous.SourceString = { Value := "one" } →
      data.SourceString = { Value := "two" } →
      ((transformResource.Read lib { State := (transformResource.Update req resp).State }
        resp').State.Get {}).1.SourceString = { Value := "two" } ∧
      ((transformResource.Read lib { State := (transformResource.Update req resp).State }
        resp').State.Get {}).1.Result =
          { Value := Spec.transform lib "two" data.TransformType.Value }) := by
  have hupdate := transformResource.Update_state req resp data diags hdec hok hresp
  have hread := transformResource.Read_state lib
    { State := (transformResource.Update req resp).State } resp' data [] hupdate rfl hresp'
  refine ⟨hread, ?_⟩
  intro previous _ _ htwo
  rw [hread, htwo]
  exact ⟨rfl, rfl⟩

/-- Witness of C5: the scenario of the specification, the source changed from `one` to
`two`, with the sample library: the source reads back as `two` and the result as
`Two`. -/
theorem transformResource.Update_then_Read_transforms_planned_source_witness :
    Example.twoUpdate.Plan.Get {} = (Example.twoRecord, []) ∧
    Example.twoUpdate.State.Get {} = (Example.oneStateRecord, []) ∧
    ((transformResource.Read strcase.sample
        { State := (transformResource.Update Example.twoUpdate
            { State := Example.oneState, Diagnostics := [] }).State }
        { State := Example.oneState, Diagnostics := [] }).State.Get {}).1.SourceString =
      { Value := "two" } ∧
    ((transformResource.Read strcase.sample
        { State := (transformResource.Update Example.twoUpdate
            { State := Example.oneState, Diagnostics := [] }).State }
        { State := Example.oneState, Diagnostics := [] }).State.Get {}).1.Result =
      { Value := "Two" } :=
  ⟨by decide, by decide,
    (transformResource.Update_then_Read_transforms_planned_source strcase.sample
      Example.twoUpdate { State := Example.oneState, Diagnostics := [] }
      { State := Example.oneState, Diagnostics := [] }
      Example.twoRecord [] (by decide) (by decide) (by decide) (by decide)).2
      Example.oneStateRecord (by decide) (by decide) (by decide)⟩

/-! ## Delete -/

/-- Claim C7 as stated fails: on a prior state that does not decode into the record,
`Delete` returns before the removal; the state after `Delete` is the prior state, which
still holds its record. -/
theorem transformResource.Delete_keeps_state_that_fails_to_decode :
    (staleState.Get {}).2.HasError = true ∧
    (transformResource.Delete { State := staleState }
      { State := staleState, Diagnostics := [] }).State = staleState ∧
    (transformResource.Delete { State := staleState }
      { State := staleState, Diagnostics := [] }).State.Raw ≠ tftypes.Value.Null := by
  decide

/-- Claim C7, amended. `Delete` removes the record whenever the prior state decodes
without an error diagnostic: the state after `Delete` is then the null value, which holds
no record and no longer decodes, and no diagnostic is added. When the decoding gives an
error diagnostic, `Delete` appends it and leaves the state of the response as it was. -/
theorem transformResource.Delete_removes_state_that_decodes
    (req : tfsdk.DeleteResourceRequest) (resp : tfsdk.DeleteResourceResponse)
    (hresp : resp.Diagnostics.HasError = false) :
    ((req.State.Get {}).2.HasError = false →
      (transformResource.Delete req resp).State.Raw = tftypes.Value.Null ∧
      ((transformResource.Delete req resp).State.Get {}).2.HasError = true ∧
      (transformResource.Delete req resp).Diagnostics = resp.Diagnostics) ∧
    ((req.State.Get {}).2.HasError = true →
      (transformResource.Delete req resp).State = resp.State ∧
      (transformResource.Delete req resp).Diagnostics =
        resp.Diagnostics.Append (req.State.Get {}).2) := by
  constructor
  · intro hok
    rw [transformResource.Delete_ok req resp hok hresp]
    exact ⟨rfl, rfl, rfl⟩
  · intro herr
    rw [transformResource.Delete_error req resp herr]
    exact ⟨rfl, rfl⟩

/-- Witness of C7, amended: `Delete` of the state of the scenario, which decodes, leaves
the null state; `Delete` of the state that does not decode leaves it in place. -/
theorem transformResource.Delete_removes_state_that_decodes_witness :
    (Example.oneState.Get {}).2.HasError = false ∧
    (transformResource.Delete { State := Example.oneState }
      { State := Example.oneState, Diagnostics := [] }).State.Raw = tftypes.Value.Null ∧
    (staleState.Get {}).2.HasError = true ∧
    (transformResource.Delete { State := staleState }
      { State := staleState, Diagnostics := [] }).State = staleState :=
  ⟨by decide,
    ((transformResource.Delete_removes_state_that_decodes { State := Example.oneState }
      { State := Example.oneState, Diagnostics := [] } (by decide)).1 (by decide)).1,
    by decide,
    ((transformResource.Delete_removes_state_that_decodes { State := staleState }
      { State := staleState, Diagnostics := [] } (by decide)).2 (by decide)).1⟩

/-! ## Decoding errors -/

/-- Claim C8. For each of `Create`, `Read` and `Update`: when the decoding of the
configuration, state or plan gives an error diagnostic, the handler returns the response
with the diagnostics of the decoding appended and the state as it was on entry, so every
diagnostic of the decoding is in the response and the response has an error; when the
decoding gives no error diagnostic, the handler leaves the diagnostics of the response
as they were on entry. -/
theorem transformResource.decode_error_halts (lib : strcase)
    (creq : tfsdk.CreateResourceRequest) (cresp : tfsdk.CreateResourceResponse)
    (rreq : tfsdk.ReadResourceRequest) (rresp : tfsdk.ReadResourceResponse)
    (ureq : tfsdk.UpdateResourceRequest) (uresp : tfsdk.UpdateResourceResponse) :
    (((creq.Config.Get {}).2.HasError = true →
        transformResource.Create creq cresp =
          { State := cresp.State
            Diagnostics := cresp.Diagnostics.Append (creq.Config.Get {}).2 } ∧
        (∀ d ∈ (creq.Config.Get {}).2, d ∈ (transformResource.Create creq cresp).Diagnostics) ∧
        (transformResource.Create creq cresp).Diagnostics.HasError = true) ∧
      ((creq.Config.Get {}).2.HasError = false →
        (transformResource.Create creq cresp).Diagnostics = cresp.Diagnostics)) ∧
    (((rreq.State.Get {}).2.HasError = true →
        transformResource.Read lib rreq rresp =
          { State := rresp.State
            Diagnostics := rresp.Diagnostics.Append (rreq.State.Get {}).2 } ∧
        (∀ d ∈ (rreq.State.Get {}).2,
          d ∈ (transformResource.Read lib rreq rresp).Diagnostics) ∧
        (transformResource.Read lib rreq rresp).Diagnostics.HasError = true) ∧
      ((rreq.State.Get {}).2.HasError = false →
        (transformResource.Read lib rreq rresp).Diagnostics = rresp.Diagnostics)) ∧
    (((ureq.Plan.Get {}).2.HasError = true →
        transformResource.Update ureq uresp =
          { State := uresp.State
            Diagnostics := uresp.Diagnostics.Append (ureq.Plan.Get {}).2 } ∧
        (∀ d ∈ (ureq.Plan.Get {}).2, d ∈ (transformResource.Update ureq uresp).Diagnostics) ∧
        (transformResource.Update ureq uresp).Diagnostics.HasError = true) ∧
      ((ureq.Plan.Get {}).2.HasError = false →
        (transformResource.Update ureq uresp).Diagnostics = uresp.Diagnostics)) := by
  refine ⟨⟨?_, transformResource.Create_diagnostics creq cresp⟩,
    ⟨?_, transformResource.Read_diagnostics lib rreq rresp⟩,
    ⟨?_, transformResource.Update_diagnostics ureq uresp⟩⟩
  · intro herr
    rw [transformResource.Create_error creq cresp herr]
    refine ⟨rfl, ?_, ?_⟩
    · intro d hd
      exact (diag.Diagnostics.mem_Append _ _ d).2 (Or.inr hd)
    · show (cresp.Diagnostics.Append (creq.Config.Get {}).2).HasError = true
      rw [diag.Diagnostics.HasError_Append, herr, Bool.or_true]
  · intro herr
    rw [transformResource.Read_error lib rreq rresp herr]
    refine ⟨rfl, ?_, ?_⟩
    · intro d hd
      exact (diag.Diagnostics.mem_Append _ _ d).2 (Or.inr hd)
    · show (rresp.Diagnostics.Append (rreq.State.Get {}).2).HasError = true
      rw [diag.Diagnostics.HasError_Append, herr, Bool.or_true]
  · intro herr
    rw [transformResource.Update_error ureq uresp herr]
    refine ⟨rfl, ?_, ?_⟩
    · intro d hd
      exact (diag.Diagnostics.mem_Append _ _ d).2 (Or.inr hd)
    · show (uresp.Diagnostics.Append (ureq.Plan.Get {}).2).HasError = true
      rw [diag.Diagnostics.HasError_Append, herr, Bool.or_true]

/-- Witness of C8: `Create` on a null configuration, `Read` on a state that does not
decode and `Update` on an unknown plan return the response with the error of the decoding
and the state of entry; `Create` on the configuration of the scenario adds no
diagnostic. -/
theorem transformResource.decode_error_halts_witness :
    (transformResource.Create
        { Config := { Raw := tftypes.Value.Null }, Plan := { Raw := tftypes.Value.Null } }
        { State := Example.oneState, Diagnostics := [] } =
      { State := Example.oneState
        Diagnostics := [reflect.conversionError "unhandled null value"] }) ∧
    (transformResource.Read strcase.sample { State := staleState }
        { State := staleState, Diagnostics := [] } =
      { State := staleState
        Diagnostics := [reflect.conversionError "mismatch between struct and object"] }) ∧
    (transformResource.Update
        { Config := Example.twoUpdate.Config, Plan := { Raw := tftypes.Value.Unknown },
          State := Example.oneState }
        { State := Example.oneState, Diagnostics := [] } =
      { State := Example.oneState
        Diagnostics := [reflect.conversionError "unhandled unknown value"] }) ∧
    (transformResource.Create Example.oneCreate
        { State := { Raw := tftypes.Value.Null }, Diagnostics := [] }).Diagnostics = [] :=
  ⟨((transformResource.decode_error_halts strcase.sample
      { Config := { Raw := tftypes.Value.Null }, Plan := { Raw := tftypes.Value.Null } }
      { State := Example.oneState, Diagnostics := [] }
      { State := staleState } { State := staleState, Diagnostics := [] }
      { Config := Example.twoUpdate.Config, Plan := { Raw := tftypes.Value.Unknown },
        State := Example.oneState }
      { State := Example.oneState, Diagnostics := [] }).1.1 (by decide)).1,
    ((transformResource.decode_error_halts strcase.sample
      { Config := { Raw := tftypes.Value.Null }, Plan := { Raw := tftypes.Value.Null } }
      { State := Example.oneState, Diagnostics := [] }
      { State := staleState } { State := staleState, Diagnostics := [] }
      { Config := Example.twoUpdate.Config, Plan := { Raw := tftypes.Value.Unknown },
        State := Example.oneState }
      { State := Example.oneState, Diagnostics := [] }).2.1.1 (by decide)).1,
    ((transformResource.decode_error_halts strcase.sample
      { Config := { Raw := tftypes.Value.Null }, Plan := { Raw := tftypes.Value.Null } }
      { State := Example.oneState, Diagnostics := [] }
      { State := staleState } { State := staleState, Diagnostics := [] }
      { Config := Example.twoUpdate.Config, Plan := { Raw := tftypes.Value.Unknown },
        State := Example.oneState }
      { State := Example.oneState, Diagnostics := [] }).2.2.1 (by decide)).1,
    (transformResource.decode_error_halts strcase.sample Example.oneCreate
      { State := { Raw := tftypes.Value.Null }, Diagnostics := [] }
      { State := staleState } { State := staleState, Diagnostics := [] }
      Example.twoUpdate { State := Example.oneState, Diagnostics := [] }).1.2 (by decide)⟩

/-! ## The schema -/

/-- Claim C9 (the code). `GetSchema` returns no diagnostic and a schema of exactly the
three string attributes `source`, `type` and `result`; `type` is marked optional and
`result` is marked computed, with the plan modifier `UseStateForUnknown`; `source` is
marked neither required nor optional nor computed: its `Required` flag is not set. -/
theorem transformResourceType.GetSchema_attributes :
    transformResourceType.GetSchema.2 = [] ∧
    transformResourceType.GetSchema.1.Attributes.map Prod.fst = ["source", "type", "result"] ∧
    (∀ kv ∈ transformResourceType.GetSchema.1.Attributes,
      kv.2.Type_ = attr.AttrType.StringType) ∧
    transformResourceType.GetSchema.1.attribute "type" =
      some { Type_ := attr.AttrType.StringType
             MarkdownDescription := "Type of transform"
             Optional := true } ∧
    transformResourceType.GetSchema.1.attribute "result" =
      some { Type_ := attr.AttrType.StringType
             MarkdownDescription := "Transform result"
             Computed := true
             PlanModifiers := [tfsdk.AttributePlanModifier.UseStateForUnknown] } ∧
    transformResourceType.GetSchema.1.attribute "source" =
      some { Type_ := attr.AttrType.StringType
             MarkdownDescription := "Source value for transform"
             Required := false
             Optional := false
             Computed := false } := by
  decide

end provider
